import Mathlib

/-
  Verification development for the telegram_streamer repository.

  Shallow embedding of the session-orchestration core:
    - src/telegram_streamer/models.py      (StreamType, StreamStatus, StreamSource,
                                            TranscodeSettings, StreamSession)
    - src/telegram_streamer/ffmpeg.py      (FFmpegWrapper argument builders)
    - src/telegram_streamer/streamer.py    (TelegramStreamer start/stop/pause/resume)
    - src/telegram_streamer/reconnection.py (ReconnectionManager)

  Python datetimes are modelled as natural-number timestamps (seconds); the
  current time is passed explicitly wherever the source calls datetime.utcnow().
  External effects (chat resolution, yt-dlp resolution, PyTgCalls transport
  calls, the outcome of each reconnection attempt) are explicit parameters.
-/

namespace TGS

/-! ## String helpers mirroring the Python string operations used by the source -/

/-- Python `pattern in s` (substring containment) on character lists. -/
def containsSub (pat : List Char) : List Char → Bool
  | [] => pat.isEmpty
  | c :: t => pat.isPrefixOf (c :: t) || containsSub pat t

/-- Python `pattern in s` on strings. -/
def strIn (pat s : String) : Bool := containsSub pat.data s.data

/-- Python `s.endswith(suf)`. -/
def strEndswith (s suf : String) : Bool := List.isSuffixOf suf.data s.data

/-- Python `s.startswith(pre)`. -/
def strStartswith (s pre : String) : Bool := List.isPrefixOf pre.data s.data

/-- Python `s.lower()` (the urls involved are ASCII, where Char.toLower agrees). -/
def strLower (s : String) : String := String.mk (s.data.map Char.toLower)

/-- Python `int(s)` on a string of decimal digits (the only inputs the source
feeds it are the digit prefixes of the fixed profile bitrates). -/
def digitsToNat (s : String) : Nat :=
  s.data.foldl (fun acc c => acc * 10 + (c.toNat - 48)) 0

/-! ## models.py -/

/-- `StreamStatus` from models.py. -/
inductive StreamStatus
  | pending
  | connecting
  | streaming
  | reconnecting
  | paused
  | stopped
  | error
  deriving DecidableEq, Repr

/-- `StreamType` from models.py: M3U, M3U8, HLS, RTMP, YOUTUBE, DIRECT.
The spec names these PLAYLIST_M3U, PLAYLIST_M3U8, HLS, RTMP, VIDEO_PLATFORM,
DIRECT_FILE respectively. -/
inductive StreamType
  | m3u
  | m3u8
  | hls
  | rtmp
  | youtube
  | direct
  deriving DecidableEq, Repr

/-- `StreamSource` from models.py. -/
structure StreamSource where
  url : String
  stream_type : StreamType
  name : Option String := none
  deriving DecidableEq, Repr

/-- `StreamSource.detect_type` from models.py lines 37-59: auto-detect the
stream type from the url, in the order of checks of the source. -/
def StreamSource.detect_type (url : String) : StreamSource :=
  let url_lower := strLower url
  if strIn "youtube.com" url_lower || strIn "youtu.be" url_lower then
    { url := url, stream_type := .youtube }
  else if strEndswith url_lower ".m3u" then
    { url := url, stream_type := .m3u }
  else if strEndswith url_lower ".m3u8" || strIn "/hls/" url_lower then
    { url := url, stream_type := .hls }
  else if strStartswith url_lower "rtmp://" || strStartswith url_lower "rtmps://" then
    { url := url, stream_type := .rtmp }
  else
    { url := url, stream_type := .hls }

/-- `TranscodeSettings` from models.py. -/
structure TranscodeSettings where
  width : Nat
  height : Nat
  video_bitrate : String
  audio_bitrate : String := "128k"
  fps : Nat := 30
  deriving DecidableEq, Repr

/-- `TranscodeSettings.get_profile` from models.py lines 82-97: the profile
dictionary has exactly the keys "480p", "720p", "1080p"; `dict.get` returns
None for every other name (including "auto"). -/
def TranscodeSettings.get_profile (profile : String) : Option TranscodeSettings :=
  if profile = "480p" then
    some { width := 854, height := 480, video_bitrate := "1500k", fps := 30 }
  else if profile = "720p" then
    some { width := 1280, height := 720, video_bitrate := "3000k", fps := 30 }
  else if profile = "1080p" then
    some { width := 1920, height := 1080, video_bitrate := "5000k", fps := 30 }
  else none

/-- `TranscodeProfile` from config.py. -/
inductive TranscodeProfile
  | auto
  | p480
  | p720
  | p1080
  deriving DecidableEq, Repr

/-- The `.value` string of each `TranscodeProfile` member (config.py). -/
def TranscodeProfile.value : TranscodeProfile → String
  | .auto => "auto"
  | .p480 => "480p"
  | .p720 => "720p"
  | .p1080 => "1080p"

/-- `StreamSession` from models.py (datetimes as Nat seconds). -/
structure StreamSession where
  id : String
  chat_id : Int
  source : StreamSource
  status : StreamStatus := .pending
  profile : String := "auto"
  created_at : Nat := 0
  started_at : Option Nat := none
  stopped_at : Option Nat := none
  reconnect_attempts : Nat := 0
  last_reconnect_at : Option Nat := none
  last_error : Option String := none
  error_count : Nat := 0
  bytes_streamed : Nat := 0
  frames_sent : Nat := 0
  deriving DecidableEq, Repr

/-- `StreamSession.mark_streaming` (models.py lines 126-130): set status
STREAMING, stamp started_at with the current time, reset reconnect_attempts. -/
def StreamSession.mark_streaming (s : StreamSession) (now : Nat) : StreamSession :=
  { s with status := .streaming, started_at := some now, reconnect_attempts := 0 }

/-- `StreamSession.mark_reconnecting` (models.py lines 132-136). -/
def StreamSession.mark_reconnecting (s : StreamSession) (now : Nat) : StreamSession :=
  { s with status := .reconnecting,
           reconnect_attempts := s.reconnect_attempts + 1,
           last_reconnect_at := some now }

/-- `StreamSession.mark_error` (models.py lines 138-142). -/
def StreamSession.mark_error (s : StreamSession) (e : String) : StreamSession :=
  { s with status := .error, last_error := some e, error_count := s.error_count + 1 }

/-- `StreamSession.mark_stopped` (models.py lines 144-147). -/
def StreamSession.mark_stopped (s : StreamSession) (now : Nat) : StreamSession :=
  { s with status := .stopped, stopped_at := some now }

/-- `StreamSession.duration_seconds` (models.py lines 149-155): 0 if never
started, else `(stopped_at or now) - started_at`. -/
def StreamSession.duration_seconds (s : StreamSession) (now : Nat) : Int :=
  match s.started_at with
  | none => 0
  | some st => (Int.ofNat (s.stopped_at.getD now)) - Int.ofNat st

/-! ## Spec-side classifier for the refinement claim C3 -/

/-- Modelled from the spec, section 3: the classification rules written out in
the priority order of the spec itself ("platform-video hostnames → VIDEO_PLATFORM;
.m3u suffix → PLAYLIST_M3U; .m3u8 suffix or path containing /hls/ → HLS;
rtmp(s):// prefix → RTMP; else → HLS"), for comparison with the
source function `StreamSource.detect_type`. The platform-video hostnames of
the spec are the
YouTube hostnames the source recognises. -/
def classifySpec (url : String) : StreamType :=
  let u := strLower url
  if strIn "youtube.com" u || strIn "youtu.be" u then .youtube
  else if strEndswith u ".m3u" then .m3u
  else if strEndswith u ".m3u8" || strIn "/hls/" u then .hls
  else if strStartswith u "rtmp://" || strStartswith u "rtmps://" then .rtmp
  else .hls

/-! ## ffmpeg.py: FFmpegWrapper argument builders -/

namespace FFmpegWrapper

/-- `FFmpegWrapper._build_input_args` (ffmpeg.py lines 78-108): reconnection
flags for HLS/M3U8/M3U sources, RTMP-live flag for RTMP sources, then the
common input options and the source url. -/
def build_input_args (source : StreamSource) : List String :=
  (if source.stream_type ∈ [StreamType.hls, StreamType.m3u8, StreamType.m3u] then
    ["-reconnect", "1", "-reconnect_streamed", "1", "-reconnect_delay_max", "5"]
   else []) ++
  (if source.stream_type = StreamType.rtmp then ["-rtmp_live", "live"] else []) ++
  ["-analyzeduration", "5000000", "-probesize", "5000000",
   "-fflags", "+genpts+discardcorrupt", "-i", source.url]

/-- `FFmpegWrapper._build_video_args` (ffmpeg.py lines 110-140): encode with
the profile settings when `get_profile` finds one, else stream-copy.
The bufsize is `int(video_bitrate[:-1]) * 2` with a "k" suffix. -/
def build_video_args (profile : TranscodeProfile) : List String :=
  match TranscodeSettings.get_profile profile.value with
  | some ts =>
    ["-c:v", "libx264",
     "-preset", "ultrafast",
     "-tune", "zerolatency",
     "-vf", "scale=" ++ toString ts.width ++ ":" ++ toString ts.height,
     "-b:v", ts.video_bitrate,
     "-maxrate", ts.video_bitrate,
     "-bufsize", toString (digitsToNat (String.mk ts.video_bitrate.data.dropLast) * 2) ++ "k",
     "-r", toString ts.fps,
     "-g", toString (ts.fps * 2),
     "-pix_fmt", "yuv420p"]
  | none => ["-c:v", "copy"]

/-- `FFmpegWrapper._build_audio_args` (ffmpeg.py lines 142-160). -/
def build_audio_args (profile : TranscodeProfile) : List String :=
  match TranscodeSettings.get_profile profile.value with
  | some ts => ["-c:a", "aac", "-b:a", ts.audio_bitrate, "-ar", "48000", "-ac", "2"]
  | none => ["-c:a", "copy"]

/-- `FFmpegWrapper._build_output_args` (ffmpeg.py lines 162-175). -/
def build_output_args (output : String := "pipe:1") : List String :=
  ["-f", "mpegts", "-flush_packets", "1", output]

/-- `FFmpegWrapper.build_command` (ffmpeg.py lines 177-208); the ffmpeg path
and thread count come from the settings. -/
def build_command (ffmpeg_path : String) (ffmpeg_threads : Nat)
    (source : StreamSource) (profile : TranscodeProfile)
    (output : String := "pipe:1") : List String :=
  [ffmpeg_path] ++
  ["-y", "-hide_banner", "-loglevel", "warning", "-threads", toString ffmpeg_threads] ++
  build_input_args source ++
  build_video_args profile ++
  build_audio_args profile ++
  build_output_args output

end FFmpegWrapper

/-! ## streamer.py: TelegramStreamer (the session registry)

The mutable state of the registry is `_sessions`, `_ffmpeg_processes`,
`_reconnect_tasks`, `_tgcalls` (modelled as the flag "is not None") and
`_started`.  Session objects are shared by reference in Python; the model
keeps the current value of each session in the association list and replaces
it on every mutation.  External calls (chat resolution, yt-dlp, PyTgCalls
play/leave/pause/resume) are parameters giving their outcome. -/

/-- The Python exception classes raised or caught by streamer.py
(exceptions.py), carrying `str(e)`. -/
inductive StreamerExc
  | streamConnectionError (msg : String)
  | streamSourceError (msg : String)
  | chatNotFoundError (msg : String)
  | permissionError (msg : String)
  deriving DecidableEq, Repr

/-- `str(e)` of an embedded exception. -/
def StreamerExc.msg : StreamerExc → String
  | .streamConnectionError m => m
  | .streamSourceError m => m
  | .chatNotFoundError m => m
  | .permissionError m => m

/-- Outcome of the external `self._tgcalls.play(...)` call: success,
a permission-class error (ChatAdminRequired / UserNotParticipant), or any
other exception. -/
inductive PlayOutcome
  | ok
  | permissionExc (msg : String)
  | otherExc (msg : String)
  deriving DecidableEq, Repr

/-- Outcome of an external transport call that either succeeds or raises
(leave_call, pause_stream, resume_stream on PyTgCalls). -/
inductive TransportOutcome
  | ok
  | exc (msg : String)
  deriving DecidableEq, Repr

/-- The mutable state of one `TelegramStreamer` (streamer.py lines 45-57).
`ffmpeg_processes` and `reconnect_tasks` are tracked by their key sets:
the claims only concern which session ids hold an entry. -/
structure StreamerState where
  sessions : List (String × StreamSession)
  ffmpeg_processes : List String
  reconnect_tasks : List String
  tgcalls : Bool
  started : Bool
  deriving DecidableEq, Repr

/-- Python `dict.get` on the session map. -/
def StreamerState.getSession (st : StreamerState) (sid : String) : Option StreamSession :=
  (st.sessions.find? (fun p => p.1 = sid)).map (·.2)

/-- Replace the stored value of session `sid` (Python mutates the shared
session object in place; the map keys are unchanged). -/
def StreamerState.setSession (st : StreamerState) (sid : String) (s : StreamSession) :
    StreamerState :=
  { st with sessions := st.sessions.map (fun p => if p.1 = sid then (p.1, s) else p) }

/-- Updating a present key with `setSession` makes `getSession` return the
new value. -/
theorem find?_map_set (l : List (String × StreamSession)) (sid : String) (x : StreamSession)
    (h : (l.find? (fun p => p.1 = sid)).isSome) :
    ((l.map (fun p => if p.1 = sid then (p.1, x) else p)).find? (fun p => p.1 = sid))
      = some (sid, x) := by
  induction l with
  | nil => simp at h
  | cons a t ih =>
    rw [List.map_cons]
    by_cases ha : a.1 = sid
    · rw [List.find?_cons_of_pos]
      · simp [ha]
      · simp [ha]
    · rw [if_neg ha, List.find?_cons_of_neg _ (by simp [ha])]
      apply ih
      rw [List.find?_cons_of_neg _ (by simp [ha])] at h
      exact h

/-- `getSession` after `setSession` on a key that is present. -/
theorem StreamerState.getSession_set (st : StreamerState) (sid : String)
    (x old : StreamSession) (h : st.getSession sid = some old) :
    (st.setSession sid x).getSession sid = some x := by
  unfold StreamerState.getSession StreamerState.setSession at *
  have hsome : (st.sessions.find? (fun p => p.1 = sid)).isSome := by
    cases hf : st.sessions.find? (fun p => p.1 = sid) <;> simp [hf] at h ⊢
  simp [find?_map_set st.sessions sid x hsome]

/-- The "occupying" statuses checked by `start_stream` (streamer.py
lines 216-220): STREAMING, CONNECTING, RECONNECTING. -/
def occupying : List StreamStatus := [.streaming, .connecting, .reconnecting]

namespace TelegramStreamer

/-- `TelegramStreamer._prepare_stream_url` (streamer.py lines 172-185):
YouTube sources go through the external `resolve_youtube_url`, whose outcome
is the parameter `ytResolve`; every other source returns its url. -/
def prepare_stream_url (source : StreamSource) (ytResolve : Except StreamerExc String) :
    Except StreamerExc String :=
  if source.stream_type = StreamType.youtube then ytResolve else .ok source.url

/-- `TelegramStreamer.start_stream` (streamer.py lines 187-288), after chat
resolution: `chat_id` is the already-resolved numeric id, `new_id` the fresh
uuid, `now` the clock, `ytResolve` the yt-dlp outcome and `play` the
PyTgCalls `play` outcome.  Returns the state after the call together with
the session on success or the raised exception. -/
def start_stream (st : StreamerState) (chat_id : Int) (source_url : String)
    (profile : TranscodeProfile) (new_id : String) (now : Nat)
    (ytResolve : Except StreamerExc String) (play : PlayOutcome) :
    StreamerState × Except StreamerExc StreamSession :=
  if st.started = false then
    (st, .error (.streamConnectionError "Streamer not started"))
  else if st.sessions.any (fun p =>
      p.2.chat_id = chat_id && occupying.contains p.2.status) then
    (st, .error (.streamConnectionError ("Already streaming to chat " ++ toString chat_id)))
  else
    let source := StreamSource.detect_type source_url
    let session : StreamSession :=
      { id := new_id, chat_id := chat_id, source := source,
        profile := profile.value, created_at := now }
    let st1 : StreamerState := { st with sessions := st.sessions ++ [(new_id, session)] }
    let session1 := { session with status := StreamStatus.connecting }
    let st2 := st1.setSession new_id session1
    match prepare_stream_url source ytResolve with
    | .error e =>
      let session2 := session1.mark_error e.msg
      (st2.setSession new_id session2,
       .error (.streamConnectionError ("Failed to start stream: " ++ e.msg)))
    | .ok _ =>
      match play with
      | .ok =>
        let session2 := session1.mark_streaming now
        (st2.setSession new_id session2, .ok session2)
      | .permissionExc m =>
        let session2 := session1.mark_error m
        (st2.setSession new_id session2,
         .error (.permissionError
           ("Insufficient permissions to join video chat. " ++
            "Ensure the account/bot has permission to manage video chats.")))
      | .otherExc m =>
        let session2 := session1.mark_error m
        (st2.setSession new_id session2,
         .error (.streamConnectionError ("Failed to start stream: " ++ m)))

/-- The observable side effects of one `stop_stream` call. -/
structure StopEffects where
  cancelled_reconnect : Bool
  stopped_ffmpeg : Bool
  left_call : Option Int
  deriving DecidableEq, Repr

/-- `TelegramStreamer.stop_stream` (streamer.py lines 290-330): unknown id
returns False untouched; otherwise cancel and drop any reconnect task, stop
and drop any ffmpeg process, invoke `leave_call` when tgcalls exists (its
exception, if any, is caught and logged), mark the session STOPPED, return
True.  The `leave` parameter is the transport outcome; the result does not
depend on it because the source swallows the exception. -/
def stop_stream (st : StreamerState) (sid : String) (now : Nat)
    (_leave : TransportOutcome) : StreamerState × Bool × StopEffects :=
  match st.getSession sid with
  | none => (st, false, { cancelled_reconnect := false, stopped_ffmpeg := false, left_call := none })
  | some session =>
    let cancelled := st.reconnect_tasks.contains sid
    let tasks := if cancelled then st.reconnect_tasks.erase sid else st.reconnect_tasks
    let stoppedFF := st.ffmpeg_processes.contains sid
    let ffs := if stoppedFF then st.ffmpeg_processes.erase sid else st.ffmpeg_processes
    let leftCall := if st.tgcalls then some session.chat_id else none
    let session2 := session.mark_stopped now
    let st2 := ({ st with reconnect_tasks := tasks, ffmpeg_processes := ffs }).setSession sid session2
    (st2, true,
     { cancelled_reconnect := cancelled, stopped_ffmpeg := stoppedFF, left_call := leftCall })

/-- `TelegramStreamer.pause_stream` (streamer.py lines 332-354): missing id or
status other than STREAMING returns False with no change; with tgcalls
present, a successful transport pause sets PAUSED and returns True, a
transport exception is caught and the call returns False with no change;
without tgcalls the call returns False with no change. -/
def pause_stream (st : StreamerState) (sid : String) (transport : TransportOutcome) :
    StreamerState × Bool :=
  match st.getSession sid with
  | none => (st, false)
  | some session =>
    if session.status ≠ StreamStatus.streaming then (st, false)
    else if st.tgcalls then
      match transport with
      | .ok => (st.setSession sid { session with status := StreamStatus.paused }, true)
      | .exc _ => (st, false)
    else (st, false)

/-- `TelegramStreamer.resume_stream` (streamer.py lines 356-378): the mirror
of pause, valid only from PAUSED back to STREAMING. -/
def resume_stream (st : StreamerState) (sid : String) (transport : TransportOutcome) :
    StreamerState × Bool :=
  match st.getSession sid with
  | none => (st, false)
  | some session =>
    if session.status ≠ StreamStatus.paused then (st, false)
    else if st.tgcalls then
      match transport with
      | .ok => (st.setSession sid { session with status := StreamStatus.streaming }, true)
      | .exc _ => (st, false)
    else (st, false)

end TelegramStreamer

/-! ## reconnection.py: ReconnectionManager

`_reconnect_loop` wraps a tenacity `AsyncRetrying` iterator with
`stop = stop_after_attempt(max_attempts) | stop_after_delay(timeout)`,
`retry = retry_if_exception_type((StreamConnectionError, StreamSourceError))`
and `reraise = True`.  Tenacity semantics embedded here:

  - attempt numbers are 1-based; the first attempt runs with no prior wait;
  - after a failed attempt, the exception is re-raised immediately when the
    retry predicate rejects it; otherwise the stop condition
    (attempt_number >= max_attempts, or seconds elapsed >= timeout) is
    evaluated, and with `reraise = True` the last exception itself is
    re-raised when it holds (never a RetryError, so the
    `except RetryError` clause is unreachable and the exhaustion path falls
    through to `except Exception`, which calls `mark_error(str(e))`);
  - otherwise the loop sleeps (the bounded exponential backoff, irrelevant
    to session state) and runs the next attempt.

The outcome of the `self._start_stream(...)` call of attempt `k` is the
parameter `outcome k`; `elapsed k` is the seconds since the loop started
when the stop condition is evaluated after attempt `k`; `timeAt k` is
`datetime.utcnow()` during attempt `k`. -/

/-- Result of the `_start_stream` call of one reconnection attempt: success,
an exception of the retried classes (StreamConnectionError or
StreamSourceError), or any other exception. -/
inductive AttemptOutcome
  | ok
  | retryable (msg : String)
  | fatal (msg : String)
  deriving DecidableEq, Repr

/-- Arguments of one `self._start_stream(...)` invocation made by the loop
(reconnection.py lines 123-127). -/
structure StartCall where
  chat_id : Int
  url : String
  profile : String
  deriving DecidableEq, Repr

/-- How `_reconnect_loop` exited: attempt succeeded; stop condition reached
(the last retried exception re-raised, caught by `except Exception`); a
non-retried exception (caught by `except Exception`); or the
`ReconnectionError` raised when the manager was stopped (caught by
`except ReconnectionError`, no session mutation). -/
inductive LoopExit
  | success
  | exhausted (msg : String)
  | fatalError (msg : String)
  | managerStopped
  deriving DecidableEq, Repr

namespace ReconnectionManager

/-- The retry iteration of `_reconnect_loop` (reconnection.py lines 95-134),
starting from attempt `k`.  Each attempt checks `self._active`, records the
attempt number and time on the session, invokes `_start_stream` with the
chat_id / source url / profile of the session, and on success calls
`mark_streaming`; a retried exception either re-raises (stop condition) or
recurses into attempt `k + 1`. -/
def reconnectAttempts (active : Bool) (maxAttempts timeout : Nat)
    (outcome : Nat → AttemptOutcome) (elapsed : Nat → Nat) (timeAt : Nat → Nat)
    (k : Nat) (s : StreamSession) (calls : List StartCall) :
    StreamSession × List StartCall × LoopExit :=
  if active = false then (s, calls, .managerStopped)
  else
    let s1 : StreamSession :=
      { s with reconnect_attempts := k, last_reconnect_at := some (timeAt k) }
    let calls1 := calls ++ [{ chat_id := s1.chat_id, url := s1.source.url, profile := s1.profile }]
    match outcome k with
    | .ok => (s1.mark_streaming (timeAt k), calls1, .success)
    | .fatal msg => (s1.mark_error msg, calls1, .fatalError msg)
    | .retryable msg =>
      if maxAttempts ≤ k ∨ timeout ≤ elapsed k then
        (s1.mark_error msg, calls1, .exhausted msg)
      else
        reconnectAttempts active maxAttempts timeout outcome elapsed timeAt (k + 1) s1 calls1
  termination_by maxAttempts - k
  decreasing_by simp_wf; omega

/-- `ReconnectionManager._reconnect_loop` (reconnection.py lines 81-159)
without its `finally` clause: mark the session RECONNECTING, then run the
retry iteration from attempt 1.  Returns the final session value, the trace
of `_start_stream` invocations, and the exit path. -/
def reconnect_loop (active : Bool) (maxAttempts timeout : Nat)
    (outcome : Nat → AttemptOutcome) (elapsed : Nat → Nat) (timeAt : Nat → Nat)
    (now0 : Nat) (s : StreamSession) :
    StreamSession × List StartCall × LoopExit :=
  let s0 := s.mark_reconnecting now0
  reconnectAttempts active maxAttempts timeout outcome elapsed timeAt 1 s0 []

/-- The `finally` clause of `_reconnect_loop` (reconnection.py lines 156-159):
on every exit path, remove the own entry of the loop from `_reconnect_tasks` if
it is present. -/
def loopCleanup (tasks : List String) (sid : String) : List String :=
  if tasks.contains sid then tasks.erase sid else tasks

/-- Python `del d[k]` on the task map: raises KeyError when the key is
absent. -/
def dictDel (tasks : List String) (sid : String) : Except String (List String) :=
  if tasks.contains sid then .ok (tasks.erase sid) else .error "KeyError"

/-- `ReconnectionManager.cancel_reconnection` (reconnection.py lines 161-179)
when the loop for `sid` (if any) is mid-flight.  When `sid` holds a task:
`task.cancel()` is called and the task is awaited; awaiting the cancelled
task drives the loop coroutine to completion, so its `finally` clause
(`loopCleanup`) runs and removes the own entry of the loop before the await
returns; the CancelledError raised by the await is caught; then the
unguarded `del self._reconnect_tasks[session_id]` executes.  When `sid`
holds no task the call returns False. -/
def cancel_reconnection (tasks : List String) (sid : String) :
    Except String (Bool × List String) :=
  if tasks.contains sid then
    let tasks1 := loopCleanup tasks sid
    match dictDel tasks1 sid with
    | .ok tasks2 => .ok (true, tasks2)
    | .error e => .error e
  else
    .ok (false, tasks)

end ReconnectionManager

/-! ## Claim theorems -/

/-- Claim C1: when some existing session for the resolved target has status
CONNECTING, STREAMING or RECONNECTING, `start_stream` fails with the
already-streaming error (a StreamConnectionError with the "Already streaming
to chat" message), creates no new session and leaves the whole registry
state — hence the fields of every existing session — unchanged. -/
theorem claim_C1_already_streaming (st : StreamerState) (chat_id : Int)
    (source_url : String) (profile : TranscodeProfile) (new_id : String) (now : Nat)
    (ytResolve : Except StreamerExc String) (play : PlayOutcome)
    (hstarted : st.started = true)
    (hocc : ∃ p ∈ st.sessions, p.2.chat_id = chat_id ∧ p.2.status ∈ occupying) :
    TelegramStreamer.start_stream st chat_id source_url profile new_id now ytResolve play =
      (st, .error (.streamConnectionError ("Already streaming to chat " ++ toString chat_id))) := by
  have hany : (st.sessions.any fun p =>
      p.2.chat_id = chat_id && occupying.contains p.2.status) = true := by
    rw [List.any_eq_true]
    obtain ⟨q, hq, hcid, hstat⟩ := hocc
    exact ⟨q, hq, by simp [hcid, hstat]⟩
  unfold TelegramStreamer.start_stream
  rw [hstarted]
  rw [if_neg (by simp : ¬(true = false))]
  rw [if_pos hany]

/-- Witness for claim C1: a registry with one STREAMING session for chat 42
rejects a second start for chat 42 and is returned unchanged. -/
theorem claim_C1_already_streaming_witness :
    let sess : StreamSession :=
      { id := "a1", chat_id := 42,
        source := { url := "https://e/s.m3u8", stream_type := StreamType.hls },
        status := StreamStatus.streaming }
    let st : StreamerState :=
      { sessions := [("a1", sess)], ffmpeg_processes := [], reconnect_tasks := [],
        tgcalls := true, started := true }
    TelegramStreamer.start_stream st 42 "https://e/other.m3u8" TranscodeProfile.auto "b2" 99
        (Except.ok "https://e/other.m3u8") PlayOutcome.ok =
      (st, .error (.streamConnectionError "Already streaming to chat 42")) := by
  intro sess st
  have h := claim_C1_already_streaming st 42 "https://e/other.m3u8" TranscodeProfile.auto "b2" 99
    (Except.ok "https://e/other.m3u8") PlayOutcome.ok rfl
    ⟨("a1", sess), by simp [st], by simp [sess], by simp [sess, occupying]⟩
  simpa using h

/-- Claim C4: `stop_stream` on an unknown id returns false and mutates
nothing; on a known id it cancels any in-flight reconnection task, stops the
ffmpeg process if one exists, invokes the call-transport leave (when the
transport exists), marks the session STOPPED and returns true; a second stop
on the same known id also completes normally (the model is a total function
whose only possible exception, from the transport leave, is caught by the
source) and returns true. -/
theorem claim_C4_stop (st : StreamerState) (sid : String) (now : Nat) (leave : TransportOutcome)
    (hT : st.reconnect_tasks.Nodup) (hF : st.ffmpeg_processes.Nodup) :
    (st.getSession sid = none →
      TelegramStreamer.stop_stream st sid now leave =
        (st, false, { cancelled_reconnect := false, stopped_ffmpeg := false, left_call := none })) ∧
    (∀ session, st.getSession sid = some session →
      (TelegramStreamer.stop_stream st sid now leave).2.1 = true ∧
      sid ∉ (TelegramStreamer.stop_stream st sid now leave).1.reconnect_tasks ∧
      sid ∉ (TelegramStreamer.stop_stream st sid now leave).1.ffmpeg_processes ∧
      (TelegramStreamer.stop_stream st sid now leave).2.2.cancelled_reconnect
        = st.reconnect_tasks.contains sid ∧
      (TelegramStreamer.stop_stream st sid now leave).2.2.stopped_ffmpeg
        = st.ffmpeg_processes.contains sid ∧
      (st.tgcalls = true →
        (TelegramStreamer.stop_stream st sid now leave).2.2.left_call = some session.chat_id) ∧
      (TelegramStreamer.stop_stream st sid now leave).1.getSession sid
        = some (session.mark_stopped now) ∧
      (session.mark_stopped now).status = StreamStatus.stopped ∧
      (∀ now2 leave2,
        (TelegramStreamer.stop_stream
          (TelegramStreamer.stop_stream st sid now leave).1 sid now2 leave2).2.1 = true)) := by
  constructor
  · intro h
    unfold TelegramStreamer.stop_stream
    rw [h]
  · intro session hget
    have hset : (TelegramStreamer.stop_stream st sid now leave).1.getSession sid
        = some (session.mark_stopped now) := by
      unfold TelegramStreamer.stop_stream
      rw [hget]
      exact StreamerState.getSession_set _ sid _ session hget
    refine ⟨?_, ?_, ?_, ?_, ?_, ?_, hset, rfl, ?_⟩
    · unfold TelegramStreamer.stop_stream
      rw [hget]
    · unfold TelegramStreamer.stop_stream
      rw [hget]
      dsimp only
      by_cases hc : st.reconnect_tasks.contains sid
      · simp only [StreamerState.setSession, hc, if_true]
        intro hmem
        exact absurd ((hT.mem_erase_iff).mp hmem).1 (by simp)
      · simp only [StreamerState.setSession, hc, if_false]
        intro hmem
        exact hc (by simpa using hmem)
    · unfold TelegramStreamer.stop_stream
      rw [hget]
      dsimp only
      by_cases hc : st.ffmpeg_processes.contains sid
      · simp only [StreamerState.setSession, hc, if_true]
        intro hmem
        exact absurd ((hF.mem_erase_iff).mp hmem).1 (by simp)
      · simp only [StreamerState.setSession, hc, if_false]
        intro hmem
        exact hc (by simpa using hmem)
    · unfold TelegramStreamer.stop_stream
      rw [hget]
    · unfold TelegramStreamer.stop_stream
      rw [hget]
    · intro htg
      unfold TelegramStreamer.stop_stream
      rw [hget]
      simp [htg]
    · intro now2 leave2
      set st2 := (TelegramStreamer.stop_stream st sid now leave).1 with hst2
      unfold TelegramStreamer.stop_stream
      rw [hset]

/-- Witness for claim C4 on a concrete registry: unknown id "zz" is a
returns-false no-op, stopping "s1" succeeds and clears its task and process
entries, and a second stop (with a failing transport leave) still returns
true. -/
theorem claim_C4_stop_witness :
    let sess : StreamSession :=
      { id := "s1", chat_id := 5,
        source := { url := "https://e/a.m3u8", stream_type := StreamType.hls },
        status := StreamStatus.streaming, started_at := some 10 }
    let st : StreamerState :=
      { sessions := [("s1", sess)], ffmpeg_processes := ["s1"], reconnect_tasks := ["s1"],
        tgcalls := true, started := true }
    (TelegramStreamer.stop_stream st "zz" 20 TransportOutcome.ok =
      (st, false, { cancelled_reconnect := false, stopped_ffmpeg := false, left_call := none })) ∧
    (TelegramStreamer.stop_stream st "s1" 20 TransportOutcome.ok).2.1 = true ∧
    "s1" ∉ (TelegramStreamer.stop_stream st "s1" 20 TransportOutcome.ok).1.reconnect_tasks ∧
    (TelegramStreamer.stop_stream st "s1" 20 TransportOutcome.ok).2.2.left_call = some 5 ∧
    (TelegramStreamer.stop_stream
      (TelegramStreamer.stop_stream st "s1" 20 TransportOutcome.ok).1 "s1" 30
      (TransportOutcome.exc "boom")).2.1 = true := by
  intro sess st
  have h := claim_C4_stop st "s1" 20 TransportOutcome.ok (by decide) (by decide)
  have hnone := claim_C4_stop st "zz" 20 TransportOutcome.ok (by decide) (by decide)
  have hs := h.2 sess (by decide)
  exact ⟨hnone.1 (by decide), hs.1, hs.2.1, by simpa using hs.2.2.2.2.2.1 rfl,
    hs.2.2.2.2.2.2.2.2 30 (TransportOutcome.exc "boom")⟩

/-- Claim C5, evaluated at the failing input: a manager whose task map holds
a running reconnection loop for "test123".  Cancelling it awaits the
cancelled loop, whose `finally` clause removes its own task entry
before the await returns; the subsequent unguarded
`del self._reconnect_tasks[session_id]` then raises KeyError, so the call
does not return true — against the claim, the docstring of the method
("Returns: True if cancelled, False if not found") and the repository test
`test_cancel_reconnection`.  The other two parts of the claim do hold and are
recorded here: with no running loop the call returns false, and the
`finally` does remove the entry on every exit path (which is exactly what
makes the later `del` fail). -/
theorem claim_C5_cancel_keyerror :
    ReconnectionManager.cancel_reconnection ["test123"] "test123"
      = Except.error "KeyError" ∧
    ReconnectionManager.cancel_reconnection [] "test123"
      = Except.ok (false, ([] : List String)) ∧
    ReconnectionManager.loopCleanup ["test123"] "test123" = [] :=
  ⟨rfl, rfl, rfl⟩

/-- Claim C3: source classification is a total, deterministic function from
url strings to exactly one of the six source kinds, applying the rules in
priority order (platform-video hostname, then .m3u suffix, then .m3u8 suffix
or /hls/, then rtmp(s):// prefix, then the HLS default); the six example
urls of spec section 8 map to HLS, PLAYLIST_M3U, RTMP, RTMP, VIDEO_PLATFORM
and HLS respectively.  The priority rules are captured by agreement with
`classifySpec`, the rule chain transcribed from the words of the spec. -/
theorem claim_C3_source_classification :
    (∀ url : String, StreamSource.detect_type url =
      { url := url, stream_type := classifySpec url, name := none }) ∧
    (StreamSource.detect_type "https://x/live/a.m3u8").stream_type = StreamType.hls ∧
    (StreamSource.detect_type "https://x/a.m3u").stream_type = StreamType.m3u ∧
    (StreamSource.detect_type "rtmp://h/k").stream_type = StreamType.rtmp ∧
    (StreamSource.detect_type "rtmps://h/k").stream_type = StreamType.rtmp ∧
    (StreamSource.detect_type "https://youtu.be/z").stream_type = StreamType.youtube ∧
    (StreamSource.detect_type "https://x/video/feed").stream_type = StreamType.hls := by
  refine ⟨?_, by decide, by decide, by decide, by decide, by decide, by decide⟩
  intro url
  unfold StreamSource.detect_type classifySpec
  dsimp only
  split_ifs <;> rfl

/-- Claim C6: the profile catalog maps "480p" to 854x480 at 1500k/30fps,
"720p" to 1280x720 at 3000k/30fps, "1080p" to 1920x1080 at 5000k/30fps, each
with audio bitrate 128k, and maps "auto" and every unknown name to no
entry. -/
theorem claim_C6_profile_catalog :
    TranscodeSettings.get_profile "480p" = some
      { width := 854, height := 480, video_bitrate := "1500k",
        audio_bitrate := "128k", fps := 30 } ∧
    TranscodeSettings.get_profile "720p" = some
      { width := 1280, height := 720, video_bitrate := "3000k",
        audio_bitrate := "128k", fps := 30 } ∧
    TranscodeSettings.get_profile "1080p" = some
      { width := 1920, height := 1080, video_bitrate := "5000k",
        audio_bitrate := "128k", fps := 30 } ∧
    TranscodeSettings.get_profile "auto" = none ∧
    (∀ p : String, p ∉ ["480p", "720p", "1080p"] →
      TranscodeSettings.get_profile p = none) := by
  refine ⟨by decide, by decide, by decide, by decide, ?_⟩
  intro p hp
  simp only [List.mem_cons, List.not_mem_nil, or_false, not_or] at hp
  unfold TranscodeSettings.get_profile
  simp [hp.1, hp.2.1, hp.2.2]

/-- Witness for claim C6 at the unknown profile name "cinema". -/
theorem claim_C6_profile_catalog_witness :
    TranscodeSettings.get_profile "cinema" = none :=
  claim_C6_profile_catalog.2.2.2.2 "cinema" (by decide)

/-- Claim C9: the derived duration of a session is 0 whenever started_at is
unset; once started_at is set it equals (stopped_at if set, otherwise the
current time) minus started_at; hence it grows monotonically with the clock
after mark_streaming while no stop time is recorded, and is frozen once
mark_stopped sets stopped_at. -/
theorem claim_C9_duration (s : StreamSession) :
    (s.started_at = none → ∀ now, s.duration_seconds now = 0) ∧
    (∀ t now, s.started_at = some t →
      s.duration_seconds now = Int.ofNat (s.stopped_at.getD now) - Int.ofNat t) ∧
    (∀ t n1 n2, s.stopped_at = none → n1 ≤ n2 →
      (s.mark_streaming t).duration_seconds n1 ≤ (s.mark_streaming t).duration_seconds n2) ∧
    (∀ t n1 n2, s.started_at = some t → s.stopped_at = none → n1 ≤ n2 →
      s.duration_seconds n1 ≤ s.duration_seconds n2) ∧
    (∀ tstop n1 n2,
      (s.mark_stopped tstop).duration_seconds n1 = (s.mark_stopped tstop).duration_seconds n2) := by
  refine ⟨?_, ?_, ?_, ?_, ?_⟩
  · intro h now
    simp [StreamSession.duration_seconds, h]
  · intro t now h
    simp [StreamSession.duration_seconds, h]
  · intro t n1 n2 hstop h
    simp [StreamSession.duration_seconds, StreamSession.mark_streaming, hstop]
    omega
  · intro t n1 n2 hstart hstop h
    simp [StreamSession.duration_seconds, hstart, hstop]
    omega
  · intro tstop n1 n2
    cases hst : s.started_at <;>
      simp [StreamSession.duration_seconds, StreamSession.mark_stopped, hst]

/-- Claim C7: the transcoder argument builder is deterministic in (source,
profile); the input-side reconnect flags appear iff the source kind is HLS,
M3U8 or M3U; the RTMP-live flag appears iff the kind is RTMP; the AUTO
profile copies both codecs; a named profile encodes video with the profile
scale, bitrate, fps and a keyframe interval of 2 x fps, and audio at 128k,
48000 Hz, 2 channels; the output arguments always select a
continuously-flushed mpegts container on a pipe.  (The membership claims
exclude the degenerate sources whose url string is itself one of the two
flag tokens.) -/
theorem claim_C7_transcoder_args :
    (∀ source : StreamSource, source.url ≠ "-reconnect" →
      ("-reconnect" ∈ FFmpegWrapper.build_input_args source ↔
        source.stream_type ∈ [StreamType.hls, StreamType.m3u8, StreamType.m3u])) ∧
    (∀ source : StreamSource, source.url ≠ "-rtmp_live" →
      ("-rtmp_live" ∈ FFmpegWrapper.build_input_args source ↔
        source.stream_type = StreamType.rtmp)) ∧
    (FFmpegWrapper.build_video_args TranscodeProfile.auto = ["-c:v", "copy"] ∧
     FFmpegWrapper.build_audio_args TranscodeProfile.auto = ["-c:a", "copy"]) ∧
    (∀ (p : TranscodeProfile) (ts : TranscodeSettings),
      TranscodeSettings.get_profile p.value = some ts →
      FFmpegWrapper.build_video_args p =
        ["-c:v", "libx264", "-preset", "ultrafast", "-tune", "zerolatency",
         "-vf", "scale=" ++ toString ts.width ++ ":" ++ toString ts.height,
         "-b:v", ts.video_bitrate, "-maxrate", ts.video_bitrate,
         "-bufsize",
         toString (digitsToNat (String.mk ts.video_bitrate.data.dropLast) * 2) ++ "k",
         "-r", toString ts.fps, "-g", toString (ts.fps * 2), "-pix_fmt", "yuv420p"] ∧
      FFmpegWrapper.build_audio_args p =
        ["-c:a", "aac", "-b:a", ts.audio_bitrate, "-ar", "48000", "-ac", "2"] ∧
      ts.audio_bitrate = "128k" ∧ ts.fps = 30) ∧
    (∀ out : String, FFmpegWrapper.build_output_args out =
      ["-f", "mpegts", "-flush_packets", "1", out]) := by
  refine ⟨?_, ?_, ⟨by decide, by decide⟩, ?_, fun out => rfl⟩
  · intro source h
    cases hst : source.stream_type <;>
      simp [FFmpegWrapper.build_input_args, hst, h, Ne.symm h]
  · intro source h
    cases hst : source.stream_type <;>
      simp [FFmpegWrapper.build_input_args, hst, h, Ne.symm h]
  · intro p ts hp
    cases p <;> simp [TranscodeProfile.value, TranscodeSettings.get_profile] at hp <;>
      subst hp <;> exact ⟨by decide, by decide, by decide, by decide⟩

/-- Witness for claim C7: the reconnect flag is present for a concrete HLS
source, absent for a concrete RTMP source which carries the live flag, and
the 720p profile produces its exact fixed encode argument list. -/
theorem claim_C7_transcoder_args_witness :
    ("-reconnect" ∈ FFmpegWrapper.build_input_args
      { url := "https://e/live/s.m3u8", stream_type := StreamType.hls }) ∧
    ("-reconnect" ∉ FFmpegWrapper.build_input_args
      { url := "rtmp://h/k", stream_type := StreamType.rtmp }) ∧
    ("-rtmp_live" ∈ FFmpegWrapper.build_input_args
      { url := "rtmp://h/k", stream_type := StreamType.rtmp }) ∧
    FFmpegWrapper.build_video_args TranscodeProfile.p720 =
      ["-c:v", "libx264", "-preset", "ultrafast", "-tune", "zerolatency",
       "-vf", "scale=1280:720", "-b:v", "3000k", "-maxrate", "3000k",
       "-bufsize", "6000k", "-r", "30", "-g", "60", "-pix_fmt", "yuv420p"] := by
  refine ⟨?_, ?_, ?_, ?_⟩
  · exact (claim_C7_transcoder_args.1
      { url := "https://e/live/s.m3u8", stream_type := StreamType.hls }
      (by decide)).mpr (by decide)
  · intro hmem
    have h := (claim_C7_transcoder_args.1
      { url := "rtmp://h/k", stream_type := StreamType.rtmp } (by decide)).mp hmem
    simp at h
  · exact (claim_C7_transcoder_args.2.1
      { url := "rtmp://h/k", stream_type := StreamType.rtmp }
      (by decide)).mpr rfl
  · have h := (claim_C7_transcoder_args.2.2.2.1 TranscodeProfile.p720
      { width := 1280, height := 720, video_bitrate := "3000k",
        audio_bitrate := "128k", fps := 30 } (by decide)).1
    simpa using h

/-- Claim C8: pause returns true and sets PAUSED exactly when the session
exists, its status is STREAMING, the transport exists and its pause call
succeeds; resume mirrors this from PAUSED back to STREAMING; in every other
case (unknown id, wrong source status, transport failure) the operation
returns false and the registry state — hence the session status and all
other fields — is unchanged. -/
theorem claim_C8_pause_resume (st : StreamerState) (sid : String) (tr : TransportOutcome) :
    ((TelegramStreamer.pause_stream st sid tr).2 = true ↔
      (∃ session, st.getSession sid = some session ∧ session.status = StreamStatus.streaming ∧
        st.tgcalls = true ∧ tr = TransportOutcome.ok)) ∧
    (∀ session, st.getSession sid = some session → session.status = StreamStatus.streaming →
      st.tgcalls = true → tr = TransportOutcome.ok →
      (TelegramStreamer.pause_stream st sid tr).1.getSession sid =
        some { session with status := StreamStatus.paused }) ∧
    ((TelegramStreamer.pause_stream st sid tr).2 = false →
      (TelegramStreamer.pause_stream st sid tr).1 = st) ∧
    ((TelegramStreamer.resume_stream st sid tr).2 = true ↔
      (∃ session, st.getSession sid = some session ∧ session.status = StreamStatus.paused ∧
        st.tgcalls = true ∧ tr = TransportOutcome.ok)) ∧
    (∀ session, st.getSession sid = some session → session.status = StreamStatus.paused →
      st.tgcalls = true → tr = TransportOutcome.ok →
      (TelegramStreamer.resume_stream st sid tr).1.getSession sid =
        some { session with status := StreamStatus.streaming }) ∧
    ((TelegramStreamer.resume_stream st sid tr).2 = false →
      (TelegramStreamer.resume_stream st sid tr).1 = st) := by
  refine ⟨?_, ?_, ?_, ?_, ?_, ?_⟩
  · unfold TelegramStreamer.pause_stream
    rcases hget : st.getSession sid with _ | session
    · simp [hget]
    · simp only [hget]
      by_cases hstat : session.status = StreamStatus.streaming
      · rw [if_neg (by simp [hstat])]
        by_cases htg : st.tgcalls = true
        · rw [if_pos htg]
          cases tr <;> simp [hget, hstat, htg]
        · rw [if_neg htg]
          simp [hget, htg]
      · rw [if_pos (by simp [hstat])]
        simp [hget, hstat]
  · intro session hs2 hstat htg htr
    subst htr
    unfold TelegramStreamer.pause_stream
    simp only [hs2]
    rw [if_neg (by simp [hstat]), if_pos htg]
    exact StreamerState.getSession_set _ sid _ session hs2
  · unfold TelegramStreamer.pause_stream
    rcases hget : st.getSession sid with _ | session
    · simp
    · simp only [hget]
      by_cases hstat : session.status = StreamStatus.streaming
      · rw [if_neg (by simp [hstat])]
        by_cases htg : st.tgcalls = true
        · rw [if_pos htg]
          cases tr <;> simp
        · rw [if_neg htg]
          simp
      · rw [if_pos (by simp [hstat])]
        simp
  · unfold TelegramStreamer.resume_stream
    rcases hget : st.getSession sid with _ | session
    · simp [hget]
    · simp only [hget]
      by_cases hstat : session.status = StreamStatus.paused
      · rw [if_neg (by simp [hstat])]
        by_cases htg : st.tgcalls = true
        · rw [if_pos htg]
          cases tr <;> simp [hget, hstat, htg]
        · rw [if_neg htg]
          simp [hget, htg]
      · rw [if_pos (by simp [hstat])]
        simp [hget, hstat]
  · intro session hs2 hstat htg htr
    subst htr
    unfold TelegramStreamer.resume_stream
    simp only [hs2]
    rw [if_neg (by simp [hstat]), if_pos htg]
    exact StreamerState.getSession_set _ sid _ session hs2
  · unfold TelegramStreamer.resume_stream
    rcases hget : st.getSession sid with _ | session
    · simp
    · simp only [hget]
      by_cases hstat : session.status = StreamStatus.paused
      · rw [if_neg (by simp [hstat])]
        by_cases htg : st.tgcalls = true
        · rw [if_pos htg]
          cases tr <;> simp
        · rw [if_neg htg]
          simp
      · rw [if_pos (by simp [hstat])]
        simp

/-- Witness for claim C8: a STREAMING session pauses successfully, a failing
transport leaves the state unchanged, and a PAUSED session resumes. -/
theorem claim_C8_pause_resume_witness :
    let sess : StreamSession :=
      { id := "p1", chat_id := 9, source := { url := "u", stream_type := StreamType.hls },
        status := StreamStatus.streaming }
    let st : StreamerState :=
      { sessions := [("p1", sess)], ffmpeg_processes := [], reconnect_tasks := [],
        tgcalls := true, started := true }
    let stP : StreamerState :=
      { st with sessions := [("p1", { sess with status := StreamStatus.paused })] }
    (TelegramStreamer.pause_stream st "p1" TransportOutcome.ok).2 = true ∧
    (TelegramStreamer.pause_stream st "p1" TransportOutcome.ok).1.getSession "p1" =
      some { sess with status := StreamStatus.paused } ∧
    (TelegramStreamer.pause_stream st "p1" (TransportOutcome.exc "x")).1 = st ∧
    (TelegramStreamer.resume_stream stP "p1" TransportOutcome.ok).2 = true := by
  intro sess st stP
  have h := claim_C8_pause_resume st "p1" TransportOutcome.ok
  have hexc := claim_C8_pause_resume st "p1" (TransportOutcome.exc "x")
  have hP := claim_C8_pause_resume stP "p1" TransportOutcome.ok
  refine ⟨?_, ?_, ?_, ?_⟩
  · exact h.1.mpr ⟨sess, by decide, rfl, rfl, rfl⟩
  · exact h.2.1 sess (by decide) rfl rfl rfl
  · exact hexc.2.2.1 (by decide)
  · exact hP.2.2.2.1.mpr ⟨{ sess with status := StreamStatus.paused }, by decide, rfl, rfl, rfl⟩

/-- Claim C10: a stop on a session that is already STOPPED returns true
again (not false) and overwrites stopped_at with the time of this latest
call, so the derived duration is measured to the most recent stop rather
than staying frozen at the first one. -/
theorem claim_C10_stop_restamps (st : StreamerState) (sid : String) (session : StreamSession)
    (now t1 t0 : Nat) (leave : TransportOutcome)
    (h : st.getSession sid = some session)
    (_hstatus : session.status = StreamStatus.stopped)
    (_hstopped : session.stopped_at = some t1)
    (hstarted : session.started_at = some t0) :
    (TelegramStreamer.stop_stream st sid now leave).2.1 = true ∧
    (TelegramStreamer.stop_stream st sid now leave).1.getSession sid
      = some (session.mark_stopped now) ∧
    (session.mark_stopped now).stopped_at = some now ∧
    (∀ anyNow, (session.mark_stopped now).duration_seconds anyNow
      = Int.ofNat now - Int.ofNat t0) := by
  refine ⟨?_, ?_, rfl, ?_⟩
  · unfold TelegramStreamer.stop_stream
    rw [h]
  · unfold TelegramStreamer.stop_stream
    rw [h]
    exact StreamerState.getSession_set _ sid _ session h
  · intro anyNow
    simp [StreamSession.duration_seconds, StreamSession.mark_stopped, hstarted]

/-- Witness for claim C10: a session stopped at 30 and stopped again at 50
reports true and duration 40 (= 50 - 10), not 20. -/
theorem claim_C10_stop_restamps_witness :
    let sess : StreamSession :=
      { id := "s1", chat_id := 5,
        source := { url := "https://e/a.m3u8", stream_type := StreamType.hls },
        status := StreamStatus.stopped, started_at := some 10, stopped_at := some 30 }
    let st : StreamerState :=
      { sessions := [("s1", sess)], ffmpeg_processes := [], reconnect_tasks := [],
        tgcalls := true, started := true }
    (TelegramStreamer.stop_stream st "s1" 50 TransportOutcome.ok).2.1 = true ∧
    (TelegramStreamer.stop_stream st "s1" 50 TransportOutcome.ok).1.getSession "s1"
      = some (sess.mark_stopped 50) ∧
    (sess.mark_stopped 50).stopped_at = some 50 ∧
    (sess.mark_stopped 50).duration_seconds 999 = 40 := by
  intro sess st
  have h := claim_C10_stop_restamps st "s1" sess 50 30 10 TransportOutcome.ok
    (by decide) rfl rfl rfl
  exact ⟨h.1, h.2.1, h.2.2.1, by simpa using h.2.2.2 999⟩

/-- Invariant of the retry iteration: every `_start_stream` invocation it
adds to the trace carries the (unchanged) chat_id, source url and
profile, and a success exit leaves the session STREAMING with
reconnect_attempts 0. -/
theorem reconnectAttempts_invariant (active : Bool) (mA tO : Nat)
    (oc : Nat → AttemptOutcome) (el tA : Nat → Nat)
    (cid : Int) (src : StreamSource) (pr : String) :
    ∀ (k : Nat) (s : StreamSession) (calls : List StartCall),
      s.chat_id = cid → s.source = src → s.profile = pr →
      ((∀ c ∈ (ReconnectionManager.reconnectAttempts active mA tO oc el tA k s calls).2.1,
          c ∈ calls ∨ c = { chat_id := cid, url := src.url, profile := pr }) ∧
       ((ReconnectionManager.reconnectAttempts active mA tO oc el tA k s calls).2.2
            = LoopExit.success →
          (ReconnectionManager.reconnectAttempts active mA tO oc el tA k s calls).1.status
            = StreamStatus.streaming ∧
          (ReconnectionManager.reconnectAttempts active mA tO oc el tA k s calls).1.reconnect_attempts
            = 0)) := by
  intro k s calls
  induction k, s, calls using ReconnectionManager.reconnectAttempts.induct active mA tO oc el tA with
  | case1 k s calls hact =>
    intro h1 h2 h3
    rw [ReconnectionManager.reconnectAttempts]
    rw [if_pos hact]
    exact ⟨fun c hc => Or.inl hc, by simp⟩
  | case2 k s calls hact hoc =>
    intro h1 h2 h3
    rw [ReconnectionManager.reconnectAttempts]
    rw [if_neg hact]
    dsimp only
    rw [hoc]
    dsimp only
    constructor
    · intro c hc
      rcases List.mem_append.mp hc with hl | hr
      · exact Or.inl hl
      · right
        simp only [List.mem_singleton] at hr
        subst hr
        simp [h1, h2, h3]
    · intro _
      exact ⟨rfl, rfl⟩
  | case3 k s calls hact msg hoc =>
    intro h1 h2 h3
    rw [ReconnectionManager.reconnectAttempts]
    rw [if_neg hact]
    dsimp only
    rw [hoc]
    dsimp only
    constructor
    · intro c hc
      rcases List.mem_append.mp hc with hl | hr
      · exact Or.inl hl
      · right
        simp only [List.mem_singleton] at hr
        subst hr
        simp [h1, h2, h3]
    · intro hx
      simp at hx
  | case4 k s calls hact msg hoc hstop =>
    intro h1 h2 h3
    rw [ReconnectionManager.reconnectAttempts]
    rw [if_neg hact]
    dsimp only
    rw [hoc]
    dsimp only
    rw [if_pos hstop]
    constructor
    · intro c hc
      rcases List.mem_append.mp hc with hl | hr
      · exact Or.inl hl
      · right
        simp only [List.mem_singleton] at hr
        subst hr
        simp [h1, h2, h3]
    · intro hx
      simp at hx
  | case5 k s calls hact s1 calls1 msg hoc hstop ih =>
    intro h1 h2 h3
    rw [ReconnectionManager.reconnectAttempts]
    rw [if_neg hact]
    dsimp only
    rw [hoc]
    dsimp only
    rw [if_neg hstop]
    have ih2 := ih h1 h2 h3
    constructor
    · intro c hc
      rcases ih2.1 c hc with hl | hr
      · rcases List.mem_append.mp hl with hll | hlr
        · exact Or.inl hll
        · right
          simp only [List.mem_singleton] at hlr
          subst hlr
          simp [h1, h2, h3]
      · exact Or.inr hr
    · exact ih2.2

/-- Claim C2: every retry attempt of the reconnection loop re-invokes the
start pathway of the registry with the existing chat_id, source url and
profile (the loop never changes those fields), and when an attempt succeeds
the loop exits with the session marked STREAMING and reconnect_attempts
reset to 0. -/
theorem claim_C2_reconnect_loop (active : Bool) (mA tO : Nat)
    (oc : Nat → AttemptOutcome) (el tA : Nat → Nat) (now0 : Nat) (s : StreamSession) :
    (∀ c ∈ (ReconnectionManager.reconnect_loop active mA tO oc el tA now0 s).2.1,
        c = { chat_id := s.chat_id, url := s.source.url, profile := s.profile }) ∧
    ((ReconnectionManager.reconnect_loop active mA tO oc el tA now0 s).2.2 = LoopExit.success →
      (ReconnectionManager.reconnect_loop active mA tO oc el tA now0 s).1.status
        = StreamStatus.streaming ∧
      (ReconnectionManager.reconnect_loop active mA tO oc el tA now0 s).1.reconnect_attempts = 0) := by
  have h := reconnectAttempts_invariant active mA tO oc el tA s.chat_id s.source s.profile 1
    (s.mark_reconnecting now0) [] rfl rfl rfl
  unfold ReconnectionManager.reconnect_loop
  refine ⟨?_, h.2⟩
  intro c hc
  rcases h.1 c hc with hl | hr
  · simp at hl
  · exact hr

/-- Witness for claim C2: a concrete loop whose first attempt fails with a
retried connection error and whose second attempt succeeds makes exactly
two start invocations with identical arguments and exits STREAMING with
reconnect_attempts 0. -/
theorem claim_C2_reconnect_loop_witness :
    let s : StreamSession :=
      { id := "r1", chat_id := 8,
        source := { url := "https://e/a.m3u8", stream_type := StreamType.hls },
        status := StreamStatus.streaming, profile := "720p" }
    let oc : Nat → AttemptOutcome :=
      fun k => if k = 1 then AttemptOutcome.retryable "net" else AttemptOutcome.ok
    (∀ c ∈ (ReconnectionManager.reconnect_loop true 3 90 oc
        (fun _ => 0) (fun k => 100 + k) 50 s).2.1,
      c = { chat_id := 8, url := "https://e/a.m3u8", profile := "720p" }) ∧
    (ReconnectionManager.reconnect_loop true 3 90 oc
        (fun _ => 0) (fun k => 100 + k) 50 s).1.status = StreamStatus.streaming ∧
    (ReconnectionManager.reconnect_loop true 3 90 oc
        (fun _ => 0) (fun k => 100 + k) 50 s).1.reconnect_attempts = 0 := by
  intro s oc
  have h := claim_C2_reconnect_loop true 3 90 oc (fun _ => 0) (fun k => 100 + k) 50 s
  have hsucc := h.2 (by
    simp [ReconnectionManager.reconnect_loop, ReconnectionManager.reconnectAttempts, oc,
      StreamSession.mark_reconnecting, StreamSession.mark_streaming])
  exact ⟨fun c hc => h.1 c hc, hsucc.1, hsucc.2⟩

/-- Witness for claim C9 on a concrete session started at time 10. -/
theorem claim_C9_duration_witness :
    let s : StreamSession :=
      { id := "w9", chat_id := 7, source := { url := "u", stream_type := StreamType.hls },
        status := StreamStatus.streaming, started_at := some 10 }
    s.duration_seconds 25 = 15 ∧
    s.duration_seconds 25 ≤ s.duration_seconds 40 ∧
    (s.mark_stopped 30).duration_seconds 100 = (s.mark_stopped 30).duration_seconds 999 := by
  intro s
  refine ⟨?_, ?_, ?_⟩
  · have h := (claim_C9_duration s).2.1 10 25 rfl
    simpa using h
  · exact (claim_C9_duration s).2.2.2.1 10 25 40 rfl rfl (by omega)
  · exact (claim_C9_duration s).2.2.2.2 30 100 999

end TGS
